import Mathlib

/-
Shallow embedding of src/api/daq_config.c from libdaq: the configuration
object and its embedded dictionary of key/value pairs, together with
theorems settling the specification's claims about them.

Modelling conventions:
- A C pointer that may be NULL becomes an Option.
- A pointer to a node of the singly-linked entry list becomes the list
  suffix starting at that node; the NULL pointer becomes the empty list.
  In particular the iterator field of DAQ_Dict_t is such a suffix.
- Heap mutation becomes explicit state passing: each operation returns the
  updated store or configuration object alongside its C return value.
- Allocation calls, calloc and strdup, cannot fail in Lean, so each
  potential allocation site takes a Bool oracle saying whether that
  allocation succeeds, which lets the out-of-memory paths be exercised.
  Passing true everywhere is the ordinary all-allocations-succeed run.
- Caller-supplied output pointers, such as the key/value out-parameters of
  daq_config_first_variable, become a Bool recording whether the pointer
  is non-null, plus an Option in the result describing what, if anything,
  the call wrote through them.
-/

namespace LibDAQ

/-- Result code DAQ_SUCCESS from daq_common.h. The header is not part of
this translation unit; only the distinctness of the codes matters here. -/
def DAQ_SUCCESS : Int := 0

/-- Result code DAQ_ERROR_INVAL from daq_common.h: invalid argument. -/
def DAQ_ERROR_INVAL : Int := -4

/-- Result code DAQ_ERROR_NOMEM from daq_common.h: allocation failure. -/
def DAQ_ERROR_NOMEM : Int := -8

/-- The module descriptor is an external handle the code stores by
reference and never inspects; a bare Nat stands in for the pointer. -/
abbrev DAQ_Module := Nat

/-- One node of the dictionary list, struct _daq_dict_entry: a key string,
an optional value string (value may be NULL in C), and a next link that is
implicit in the list structure here. -/
structure DAQ_DictEntry where
  key : String
  value : Option String
deriving DecidableEq

/-- struct _daq_dict: the head pointer (entries) and the iteration cursor
(iterator). Both are node pointers, rendered as list suffixes; the empty
list stands for NULL. -/
structure DAQ_Dict where
  entries : List DAQ_DictEntry
  iterator : List DAQ_DictEntry
deriving DecidableEq

/-- struct _daq_config: module reference, owned input string, scalar
fields, and the embedded dictionary. The C field name is a keyword in
Lean, so the field is called vars here. -/
structure DAQ_Config where
  module : DAQ_Module
  input : Option String
  snaplen : Int
  timeout : Nat
  mode : Nat
  flags : Nat
  vars : DAQ_Dict
deriving DecidableEq

/-- daq_dict_insert_entry: allocate a node, copy the key, copy the value
when present, and link the node in as the new head. The three Bools are
the outcomes of the calloc, the strdup of the key, and the strdup of the
value; on any failure everything allocated so far is released and the
dictionary is unchanged. -/
def daq_dict_insert_entry (dict : DAQ_Dict) (key : String) (value : Option String)
    (ok_node ok_key ok_val : Bool) : Int × DAQ_Dict :=
  if !ok_node then (DAQ_ERROR_NOMEM, dict)
  else if !ok_key then (DAQ_ERROR_NOMEM, dict)
  else
    match value with
    | some _ =>
      if !ok_val then (DAQ_ERROR_NOMEM, dict)
      else (DAQ_SUCCESS, { dict with entries := ⟨key, value⟩ :: dict.entries })
    | none => (DAQ_SUCCESS, { dict with entries := ⟨key, value⟩ :: dict.entries })

/-- The scanning loop of daq_dict_find_entry: walk the list from the given
node and return the first entry whose key compares equal under strcmp,
which on strings is exact equality. -/
def findEntry : List DAQ_DictEntry → String → Option DAQ_DictEntry
  | [], _ => none
  | entry :: rest, key =>
    if entry.key = key then some entry else findEntry rest key

/-- daq_dict_find_entry: linear scan from the head. -/
def daq_dict_find_entry (dict : DAQ_Dict) (key : String) : Option DAQ_DictEntry :=
  findEntry dict.entries key

/-- The loop of daq_dict_delete_entry: some l is the list with the first
matching node unlinked, none means the key was not found and nothing was
changed. The prev pointer of the C loop is the accumulated prefix here. -/
def removeEntry : List DAQ_DictEntry → String → Option (List DAQ_DictEntry)
  | [], _ => none
  | entry :: rest, key =>
    if entry.key = key then some rest
    else (removeEntry rest key).map (fun l => entry :: l)

/-- daq_dict_delete_entry: if the key is found, unlink and free that node
and reset the iterator to NULL; if it is not found, return with the
dictionary untouched, iterator included. -/
def daq_dict_delete_entry (dict : DAQ_Dict) (key : String) : DAQ_Dict :=
  match removeEntry dict.entries key with
  | some l => { entries := l, iterator := [] }
  | none => dict

/-- daq_dict_clear: free every node and reset head and iterator. -/
def daq_dict_clear (_dict : DAQ_Dict) : DAQ_Dict :=
  { entries := [], iterator := [] }

/-- daq_dict_first_entry: set the iterator to the head and return it; the
returned entry is the node the new iterator points at, none when NULL. -/
def daq_dict_first_entry (dict : DAQ_Dict) : DAQ_Dict × Option DAQ_DictEntry :=
  let d := { dict with iterator := dict.entries }
  (d, d.iterator.head?)

/-- daq_dict_next_entry: when the iterator is non-NULL advance it to the
next node; return the node the iterator now points at. When the iterator
was already NULL nothing moves and NULL is returned. -/
def daq_dict_next_entry (dict : DAQ_Dict) : DAQ_Dict × Option DAQ_DictEntry :=
  match dict.iterator with
  | [] => (dict, none)
  | _ :: rest => ({ dict with iterator := rest }, rest.head?)

/-- The in-place value assignment performed by daq_config_set_variable
through the pointer returned by daq_dict_find_entry: the first entry whose
key matches gets the new value, the rest of the list is untouched. -/
def setEntryValue : List DAQ_DictEntry → String → Option String → List DAQ_DictEntry
  | [], _, _ => []
  | entry :: rest, key, value =>
    if entry.key = key then { entry with value := value } :: rest
    else entry :: setEntryValue rest key value

/-- daq_config_new: fails with DAQ_ERROR_INVAL when the output pointer or
the module reference is NULL, with DAQ_ERROR_NOMEM when the calloc fails
(ok_alloc false); on success the zero-initialized configuration with the
module reference stored is written to the output pointer. The Option in
the result is what was written through cfgptr: none means it was never
written. -/
def daq_config_new (cfgptr_ok : Bool) (module : Option DAQ_Module) (ok_alloc : Bool) :
    Int × Option DAQ_Config :=
  match module with
  | none => (DAQ_ERROR_INVAL, none)
  | some m =>
    if !cfgptr_ok then (DAQ_ERROR_INVAL, none)
    else if !ok_alloc then (DAQ_ERROR_NOMEM, none)
    else (DAQ_SUCCESS, some { module := m, input := none, snaplen := 0, timeout := 0,
                              mode := 0, flags := 0,
                              vars := { entries := [], iterator := [] } })

/-- daq_config_get_module: NULL receiver gives NULL. -/
def daq_config_get_module (cfg : Option DAQ_Config) : Option DAQ_Module :=
  match cfg with
  | none => none
  | some c => some c.module

/-- daq_config_set_input: free any prior input string and clear the field,
then, when the new input is non-NULL, strdup it (outcome ok); on strdup
failure the field stays cleared and DAQ_ERROR_NOMEM is returned. -/
def daq_config_set_input (cfg : Option DAQ_Config) (input : Option String) (ok : Bool) :
    Int × Option DAQ_Config :=
  match cfg with
  | none => (DAQ_ERROR_INVAL, none)
  | some c =>
    let c := { c with input := none }
    match input with
    | none => (DAQ_SUCCESS, some c)
    | some s =>
      if ok then (DAQ_SUCCESS, some { c with input := some s })
      else (DAQ_ERROR_NOMEM, some c)

/-- daq_config_get_input: NULL receiver gives NULL, otherwise the field. -/
def daq_config_get_input (cfg : Option DAQ_Config) : Option String :=
  match cfg with
  | none => none
  | some c => c.input

/-- daq_config_set_variable: reject NULL cfg or key; look the key up, and
when absent delegate to daq_dict_insert_entry. When present and the new
value is non-NULL, strdup the new value first (outcome ok_val), and only
after that succeeds free the old value and store the new one, so a failed
strdup leaves everything unchanged; when the new value is NULL just free
any old value and clear the field. -/
def daq_config_set_variable (cfg : Option DAQ_Config) (key : Option String)
    (value : Option String) (ok_node ok_key ok_val : Bool) : Int × Option DAQ_Config :=
  match cfg, key with
  | none, _ => (DAQ_ERROR_INVAL, none)
  | some c, none => (DAQ_ERROR_INVAL, some c)
  | some c, some k =>
    match daq_dict_find_entry c.vars k with
    | none =>
      let r := daq_dict_insert_entry c.vars k value ok_node ok_key ok_val
      (r.1, some { c with vars := r.2 })
    | some _ =>
      match value with
      | some v =>
        if ok_val then
          (DAQ_SUCCESS, some { c with vars :=
            { c.vars with entries := setEntryValue c.vars.entries k (some v) } })
        else (DAQ_ERROR_NOMEM, some c)
      | none =>
        (DAQ_SUCCESS, some { c with vars :=
          { c.vars with entries := setEntryValue c.vars.entries k none } })

/-- daq_config_get_variable: NULL cfg or key gives NULL; an absent key
gives NULL; a present key gives the entry's value pointer, which is itself
NULL for a present-with-no-value entry. -/
def daq_config_get_variable (cfg : Option DAQ_Config) (key : Option String) : Option String :=
  match cfg, key with
  | some c, some k =>
    match daq_dict_find_entry c.vars k with
    | some entry => entry.value
    | none => none
  | _, _ => none

/-- daq_config_delete_variable: no-op on NULL cfg or key, otherwise
delegate to daq_dict_delete_entry. -/
def daq_config_delete_variable (cfg : Option DAQ_Config) (key : Option String) :
    Option DAQ_Config :=
  match cfg, key with
  | some c, some k => some { c with vars := daq_dict_delete_entry c.vars k }
  | _, _ => cfg

/-- daq_config_first_variable: DAQ_ERROR_INVAL when cfg or either output
pointer is NULL, with nothing written and the store untouched; otherwise
reset the cursor via daq_dict_first_entry and write the projected pair,
the pair (none, none) when the store is empty. -/
def daq_config_first_variable (cfg : Option DAQ_Config) (keyp valuep : Bool) :
    Int × Option DAQ_Config × Option (Option String × Option String) :=
  match cfg with
  | none => (DAQ_ERROR_INVAL, none, none)
  | some c =>
    if !keyp || !valuep then (DAQ_ERROR_INVAL, some c, none)
    else
      let r := daq_dict_first_entry c.vars
      match r.2 with
      | some entry => (DAQ_SUCCESS, some { c with vars := r.1 },
                       some (some entry.key, entry.value))
      | none => (DAQ_SUCCESS, some { c with vars := r.1 }, some (none, none))

/-- daq_config_next_variable: DAQ_ERROR_INVAL when cfg or either output
pointer is NULL, with nothing written and the store untouched; otherwise
advance via daq_dict_next_entry and write the projected pair, the pair
(none, none) at the end of the iteration. -/
def daq_config_next_variable (cfg : Option DAQ_Config) (keyp valuep : Bool) :
    Int × Option DAQ_Config × Option (Option String × Option String) :=
  match cfg with
  | none => (DAQ_ERROR_INVAL, none, none)
  | some c =>
    if !keyp || !valuep then (DAQ_ERROR_INVAL, some c, none)
    else
      let r := daq_dict_next_entry c.vars
      match r.2 with
      | some entry => (DAQ_SUCCESS, some { c with vars := r.1 },
                       some (some entry.key, entry.value))
      | none => (DAQ_SUCCESS, some { c with vars := r.1 }, some (none, none))

/-- daq_config_clear_variables: no-op on NULL cfg, otherwise clear. -/
def daq_config_clear_variables (cfg : Option DAQ_Config) : Option DAQ_Config :=
  match cfg with
  | none => none
  | some c => some { c with vars := daq_dict_clear c.vars }

/-- Number of entries of the list whose key is exactly k. -/
def countKey : List DAQ_DictEntry → String → Nat
  | [], _ => 0
  | entry :: rest, k => (if entry.key = k then 1 else 0) + countKey rest k

/-- Keys are pairwise distinct across the live entries of a store. -/
def uniqueKeys (l : List DAQ_DictEntry) : Prop :=
  l.Pairwise (fun a b => a.key ≠ b.key)

/-- A freshly created configuration object, as daq_config_new builds it
for module handle 0: every field zero-initialized. -/
def cfg0 : DAQ_Config :=
  { module := 0, input := none, snaplen := 0, timeout := 0, mode := 0, flags := 0,
    vars := { entries := [], iterator := [] } }

/-- A configuration object whose store has a single entry mapping the key
k to the value v0. -/
def cfg1 : DAQ_Config :=
  { cfg0 with vars := { entries := [⟨"k", some "v0"⟩], iterator := [] } }

/-
Helper lemmas about the list-level operations.
-/

theorem findEntry_key {l : List DAQ_DictEntry} {k : String} {e : DAQ_DictEntry}
    (h : findEntry l k = some e) : e.key = k := by
  induction l with
  | nil => simp [findEntry] at h
  | cons a rest ih =>
    by_cases ha : a.key = k
    · simp only [findEntry, if_pos ha, Option.some.injEq] at h
      exact h ▸ ha
    · simp only [findEntry, if_neg ha] at h
      exact ih h

theorem findEntry_cons_self (k : String) (v : Option String) (l : List DAQ_DictEntry) :
    findEntry (⟨k, v⟩ :: l) k = some ⟨k, v⟩ := by
  simp [findEntry]

theorem findEntry_eq_none {l : List DAQ_DictEntry} {k : String} :
    findEntry l k = none ↔ ∀ e ∈ l, e.key ≠ k := by
  induction l with
  | nil => simp [findEntry]
  | cons a rest ih =>
    by_cases ha : a.key = k <;> simp [findEntry, ha, ih]

theorem findEntry_setEntryValue {l : List DAQ_DictEntry} {k : String} {e : DAQ_DictEntry}
    (h : findEntry l k = some e) (v : Option String) :
    findEntry (setEntryValue l k v) k = some { e with value := v } := by
  induction l with
  | nil => simp [findEntry] at h
  | cons a rest ih =>
    by_cases ha : a.key = k
    · simp only [findEntry, if_pos ha, Option.some.injEq] at h
      subst h
      simp [setEntryValue, findEntry, if_pos ha, ha]
    · simp only [findEntry, if_neg ha] at h
      simp only [setEntryValue, if_neg ha, findEntry]
      exact ih h

theorem setEntryValue_map_key (l : List DAQ_DictEntry) (k : String) (v : Option String) :
    (setEntryValue l k v).map DAQ_DictEntry.key = l.map DAQ_DictEntry.key := by
  induction l with
  | nil => rfl
  | cons a rest ih =>
    by_cases ha : a.key = k <;> simp [setEntryValue, ha, ih]

theorem countKey_setEntryValue (l : List DAQ_DictEntry) (k' k : String) (v : Option String) :
    countKey (setEntryValue l k v) k' = countKey l k' := by
  induction l with
  | nil => rfl
  | cons a rest ih =>
    by_cases ha : a.key = k <;> simp [setEntryValue, ha, countKey, ih]

theorem countKey_eq_zero {l : List DAQ_DictEntry} {k : String}
    (h : ∀ e ∈ l, e.key ≠ k) : countKey l k = 0 := by
  induction l with
  | nil => rfl
  | cons a rest ih =>
    have ha : a.key ≠ k := h a (List.mem_cons_self a rest)
    simp only [countKey, if_neg ha, Nat.zero_add]
    exact ih fun e he => h e (List.mem_cons_of_mem a he)

theorem countKey_pos {l : List DAQ_DictEntry} {k : String} {e : DAQ_DictEntry}
    (h : findEntry l k = some e) : 0 < countKey l k := by
  induction l with
  | nil => simp [findEntry] at h
  | cons a rest ih =>
    by_cases ha : a.key = k
    · simp [countKey, ha]
    · simp only [findEntry, if_neg ha] at h
      simpa [countKey, ha] using ih h

theorem countKey_le_one {l : List DAQ_DictEntry} (hU : uniqueKeys l) (k : String) :
    countKey l k ≤ 1 := by
  induction l with
  | nil => exact Nat.zero_le 1
  | cons a rest ih =>
    rw [uniqueKeys, List.pairwise_cons] at hU
    by_cases ha : a.key = k
    · have hz : countKey rest k = 0 :=
        countKey_eq_zero fun e he hk => hU.1 e he (ha.trans hk.symm)
      simp [countKey, ha, hz]
    · simpa [countKey, ha] using ih hU.2

theorem uniqueKeys_iff (l : List DAQ_DictEntry) :
    uniqueKeys l ↔ (l.map DAQ_DictEntry.key).Pairwise (fun a b => a ≠ b) := by
  rw [uniqueKeys, List.pairwise_map]

theorem uniqueKeys_setEntryValue {l : List DAQ_DictEntry} (hU : uniqueKeys l)
    (k : String) (v : Option String) : uniqueKeys (setEntryValue l k v) := by
  rw [uniqueKeys_iff] at hU ⊢
  rwa [setEntryValue_map_key]

theorem uniqueKeys_cons {l : List DAQ_DictEntry} {k : String} (v : Option String)
    (h : findEntry l k = none) (hU : uniqueKeys l) :
    uniqueKeys (⟨k, v⟩ :: l) := by
  rw [uniqueKeys, List.pairwise_cons]
  exact ⟨fun b hb => Ne.symm (findEntry_eq_none.mp h b hb), hU⟩

theorem removeEntry_eq_none {l : List DAQ_DictEntry} {k : String} :
    removeEntry l k = none ↔ findEntry l k = none := by
  induction l with
  | nil => simp [removeEntry, findEntry]
  | cons a rest ih =>
    by_cases ha : a.key = k <;>
      simp [removeEntry, findEntry, ha, ih, Option.map_eq_none']

/-
Characterization lemmas for the configuration-level operations in the
ordinary all-allocations-succeed run.
-/

theorem insert_ok (d : DAQ_Dict) (k : String) (v : Option String) :
    daq_dict_insert_entry d k v true true true =
      (DAQ_SUCCESS, { d with entries := ⟨k, v⟩ :: d.entries }) := by
  cases v <;> rfl

theorem set_variable_found (c : DAQ_Config) (k : String) (v : Option String)
    (e : DAQ_DictEntry) (h : daq_dict_find_entry c.vars k = some e) (b1 b2 : Bool) :
    daq_config_set_variable (some c) (some k) v b1 b2 true =
      (DAQ_SUCCESS, some { c with vars :=
        { c.vars with entries := setEntryValue c.vars.entries k v } }) := by
  cases v <;> simp [daq_config_set_variable, h]

theorem set_variable_notfound (c : DAQ_Config) (k : String) (v : Option String)
    (h : daq_dict_find_entry c.vars k = none) :
    daq_config_set_variable (some c) (some k) v true true true =
      (DAQ_SUCCESS, some { c with vars :=
        { c.vars with entries := ⟨k, v⟩ :: c.vars.entries } }) := by
  simp [daq_config_set_variable, h, insert_ok]

theorem set_none_after (c1 : DAQ_Config) (k v : String)
    (hf1 : daq_dict_find_entry c1.vars k = some ⟨k, some v⟩) :
    ∃ c2 : DAQ_Config,
      daq_config_set_variable (some c1) (some k) none true true true =
        (DAQ_SUCCESS, some c2) ∧
      daq_config_get_variable (some c2) (some k) = none ∧
      daq_dict_find_entry c2.vars k = some ⟨k, none⟩ := by
  refine ⟨_, set_variable_found c1 k none ⟨k, some v⟩ hf1 true true, ?_, ?_⟩
  · have hf2 : findEntry (setEntryValue c1.vars.entries k none) k = some ⟨k, none⟩ :=
      findEntry_setEntryValue hf1 none
    simp [daq_config_get_variable, daq_dict_find_entry, hf2]
  · exact findEntry_setEntryValue hf1 none

theorem set_after_found (c1 : DAQ_Config) (k v2 : String) (v1 : Option String)
    (hf1 : daq_dict_find_entry c1.vars k = some ⟨k, v1⟩) :
    ∃ c2 : DAQ_Config,
      daq_config_set_variable (some c1) (some k) (some v2) true true true =
        (DAQ_SUCCESS, some c2) ∧
      c2.vars.entries = setEntryValue c1.vars.entries k (some v2) ∧
      daq_dict_find_entry c2.vars k = some ⟨k, some v2⟩ := by
  refine ⟨_, set_variable_found c1 k (some v2) ⟨k, v1⟩ hf1 true true, rfl, ?_⟩
  exact findEntry_setEntryValue hf1 (some v2)

/-- Claim C1: for every non-empty key k and string v, on a live
configuration object setVariable(k, v) followed by getVariable(k) returns
exactly v; a further setVariable(k, none) makes getVariable(k) return
none while daq_dict_find_entry still finds an entry for k, so present
with no value is observationally reachable while getVariable alone
reports none. -/
theorem C1_set_get_roundtrip (c : DAQ_Config) (k v : String) (hk : k ≠ "") :
    ∃ c1 c2 : DAQ_Config,
      daq_config_set_variable (some c) (some k) (some v) true true true =
        (DAQ_SUCCESS, some c1) ∧
      daq_config_get_variable (some c1) (some k) = some v ∧
      daq_config_set_variable (some c1) (some k) none true true true =
        (DAQ_SUCCESS, some c2) ∧
      daq_config_get_variable (some c2) (some k) = none ∧
      daq_dict_find_entry c2.vars k = some ⟨k, none⟩ := by
  cases hf : daq_dict_find_entry c.vars k with
  | none =>
    have h1 := set_variable_notfound c k (some v) hf
    have hf1 : daq_dict_find_entry
        ({ c with vars := { c.vars with
            entries := ⟨k, some v⟩ :: c.vars.entries } } : DAQ_Config).vars k =
        some ⟨k, some v⟩ :=
      findEntry_cons_self k (some v) c.vars.entries
    obtain ⟨c2, h2, hget2, hfind2⟩ := set_none_after _ k v hf1
    refine ⟨_, c2, h1, ?_, h2, hget2, hfind2⟩
    simp [daq_config_get_variable, hf1]
  | some e =>
    have h1 := set_variable_found c k (some v) e hf true true
    have hf1 : daq_dict_find_entry
        ({ c with vars := { c.vars with
            entries := setEntryValue c.vars.entries k (some v) } } : DAQ_Config).vars k =
        some ⟨k, some v⟩ := by
      have h' := findEntry_setEntryValue (show findEntry c.vars.entries k = some e from hf)
        (some v)
      have hek : e.key = k := findEntry_key hf
      cases e with
      | mk ek ev =>
        change ek = k at hek
        subst hek
        exact h'
    obtain ⟨c2, h2, hget2, hfind2⟩ := set_none_after _ k v hf1
    refine ⟨_, c2, h1, ?_, h2, hget2, hfind2⟩
    simp [daq_config_get_variable, hf1]

/-- Witness for C1 at a concrete input: the empty configuration, key x,
value y. -/
theorem C1_set_get_roundtrip_witness :
    ("x" : String) ≠ "" ∧
    (∃ c1 c2 : DAQ_Config,
      daq_config_set_variable (some cfg0) (some "x") (some "y") true true true =
        (DAQ_SUCCESS, some c1) ∧
      daq_config_get_variable (some c1) (some "x") = some "y" ∧
      daq_config_set_variable (some c1) (some "x") none true true true =
        (DAQ_SUCCESS, some c2) ∧
      daq_config_get_variable (some c2) (some "x") = none ∧
      daq_dict_find_entry c2.vars "x" = some ⟨"x", none⟩) :=
  ⟨by decide, C1_set_get_roundtrip cfg0 "x" "y" (by decide)⟩

/-- Claim C3: on a store with pairwise-distinct keys, whose writes all go
through setVariable, set(k, v1) then set(k, v2) leaves exactly one entry
whose key equals k, that entry's value is v2, and key uniqueness is
preserved. -/
theorem C3_set_set_unique (c : DAQ_Config) (k v1 v2 : String)
    (hU : uniqueKeys c.vars.entries) :
    ∃ c1 c2 : DAQ_Config,
      daq_config_set_variable (some c) (some k) (some v1) true true true =
        (DAQ_SUCCESS, some c1) ∧
      daq_config_set_variable (some c1) (some k) (some v2) true true true =
        (DAQ_SUCCESS, some c2) ∧
      countKey c2.vars.entries k = 1 ∧
      daq_dict_find_entry c2.vars k = some ⟨k, some v2⟩ ∧
      uniqueKeys c2.vars.entries := by
  cases hf : daq_dict_find_entry c.vars k with
  | none =>
    have h1 := set_variable_notfound c k (some v1) hf
    have hf1 : daq_dict_find_entry
        ({ c with vars := { c.vars with
            entries := ⟨k, some v1⟩ :: c.vars.entries } } : DAQ_Config).vars k =
        some ⟨k, some v1⟩ :=
      findEntry_cons_self k (some v1) c.vars.entries
    obtain ⟨c2, h2, he2, hfind2⟩ := set_after_found _ k v2 (some v1) hf1
    refine ⟨_, c2, h1, h2, ?_, hfind2, ?_⟩
    · rw [he2, countKey_setEntryValue]
      have hz : countKey c.vars.entries k = 0 :=
        countKey_eq_zero (findEntry_eq_none.mp hf)
      simp [countKey, hz]
    · rw [he2]
      exact uniqueKeys_setEntryValue (uniqueKeys_cons (some v1) hf hU) k (some v2)
  | some e =>
    have h1 := set_variable_found c k (some v1) e hf true true
    have hf1 : daq_dict_find_entry
        ({ c with vars := { c.vars with
            entries := setEntryValue c.vars.entries k (some v1) } } : DAQ_Config).vars k =
        some ⟨k, some v1⟩ := by
      have h' := findEntry_setEntryValue (show findEntry c.vars.entries k = some e from hf)
        (some v1)
      have hek : e.key = k := findEntry_key hf
      cases e with
      | mk ek ev =>
        change ek = k at hek
        subst hek
        exact h'
    obtain ⟨c2, h2, he2, hfind2⟩ := set_after_found _ k v2 (some v1) hf1
    refine ⟨_, c2, h1, h2, ?_, hfind2, ?_⟩
    · rw [he2, countKey_setEntryValue]
      show countKey (setEntryValue c.vars.entries k (some v1)) k = 1
      rw [countKey_setEntryValue]
      exact Nat.le_antisymm (countKey_le_one hU k) (countKey_pos hf)
    · rw [he2]
      exact uniqueKeys_setEntryValue (uniqueKeys_setEntryValue hU k (some v1)) k (some v2)

/-- Witness for C3 at a concrete input: the empty configuration, whose
store trivially has pairwise-distinct keys. -/
theorem C3_set_set_unique_witness :
    uniqueKeys cfg0.vars.entries ∧
    (∃ c1 c2 : DAQ_Config,
      daq_config_set_variable (some cfg0) (some "x") (some "a") true true true =
        (DAQ_SUCCESS, some c1) ∧
      daq_config_set_variable (some c1) (some "x") (some "b") true true true =
        (DAQ_SUCCESS, some c2) ∧
      countKey c2.vars.entries "x" = 1 ∧
      daq_dict_find_entry c2.vars "x" = some ⟨"x", some "b"⟩ ∧
      uniqueKeys c2.vars.entries) :=
  ⟨List.Pairwise.nil, C3_set_set_unique cfg0 "x" "a" "b" List.Pairwise.nil⟩

/-- Counterexample to claim C2 as stated for every store: on a store that
already holds an entry with key x, inserting a, b, c and iterating with
first and three advances does not end on none, it reaches the
pre-existing entry. -/
theorem C2_counterexample :
    (daq_dict_next_entry (daq_dict_next_entry (daq_dict_next_entry (daq_dict_first_entry
      (daq_dict_insert_entry (daq_dict_insert_entry (daq_dict_insert_entry
        { entries := [⟨"x", none⟩], iterator := [] } "a" none true true true).2
        "b" none true true true).2 "c" none true true true).2).1).1).1).2 ≠ none := by
  decide

/-- Claim C2 amended: starting from an empty store, inserting three
distinct keys k1 then k2 then k3 and iterating with first followed by
repeated advance visits exactly the entries for k3, k2, k1 in that order
and then yields none; on a non-empty store the pre-existing entries are
visited after these three instead of none. -/
theorem C2_reverse_insertion_order (k1 k2 k3 : String) (v1 v2 v3 : Option String)
    (h12 : k1 ≠ k2) (h13 : k1 ≠ k3) (h23 : k2 ≠ k3) :
    ∃ d1 d2 d3 : DAQ_Dict,
      daq_dict_insert_entry { entries := [], iterator := [] } k1 v1 true true true =
        (DAQ_SUCCESS, d1) ∧
      daq_dict_insert_entry d1 k2 v2 true true true = (DAQ_SUCCESS, d2) ∧
      daq_dict_insert_entry d2 k3 v3 true true true = (DAQ_SUCCESS, d3) ∧
      (daq_dict_first_entry d3).2 = some ⟨k3, v3⟩ ∧
      (daq_dict_next_entry (daq_dict_first_entry d3).1).2 = some ⟨k2, v2⟩ ∧
      (daq_dict_next_entry (daq_dict_next_entry
        (daq_dict_first_entry d3).1).1).2 = some ⟨k1, v1⟩ ∧
      (daq_dict_next_entry (daq_dict_next_entry (daq_dict_next_entry
        (daq_dict_first_entry d3).1).1).1).2 = none := by
  refine ⟨{ entries := [⟨k1, v1⟩], iterator := [] },
    { entries := [⟨k2, v2⟩, ⟨k1, v1⟩], iterator := [] },
    { entries := [⟨k3, v3⟩, ⟨k2, v2⟩, ⟨k1, v1⟩], iterator := [] },
    insert_ok _ k1 v1, insert_ok _ k2 v2, insert_ok _ k3 v3, rfl, rfl, rfl, rfl⟩

/-- Witness for the amended C2 at concrete distinct keys a, b, c. -/
theorem C2_reverse_insertion_order_witness :
    ∃ d1 d2 d3 : DAQ_Dict,
      daq_dict_insert_entry { entries := [], iterator := [] } "a" none true true true =
        (DAQ_SUCCESS, d1) ∧
      daq_dict_insert_entry d1 "b" (some "vb") true true true = (DAQ_SUCCESS, d2) ∧
      daq_dict_insert_entry d2 "c" none true true true = (DAQ_SUCCESS, d3) ∧
      (daq_dict_first_entry d3).2 = some ⟨"c", none⟩ ∧
      (daq_dict_next_entry (daq_dict_first_entry d3).1).2 = some ⟨"b", some "vb"⟩ ∧
      (daq_dict_next_entry (daq_dict_next_entry
        (daq_dict_first_entry d3).1).1).2 = some ⟨"a", none⟩ ∧
      (daq_dict_next_entry (daq_dict_next_entry (daq_dict_next_entry
        (daq_dict_first_entry d3).1).1).1).2 = none :=
  C2_reverse_insertion_order "a" "b" "c" none (some "vb") none
    (by decide) (by decide) (by decide)

/-- Counterexample to claim C4 as stated: deleting an absent key leaves
the cursor untouched, it is not reset to none. Here the store holds one
entry with key a, the cursor points at it, and deleting the absent key b
leaves the cursor set. -/
theorem C4_counterexample :
    (daq_dict_delete_entry
      { entries := [⟨"a", none⟩], iterator := [⟨"a", none⟩] } "b").iterator ≠ [] := by
  decide

/-- Claim C4 amended: after delete(k) on a store where k is present the
cursor is none; when k is absent, delete leaves the store, cursor
included, entirely unchanged. In both cases the invariant that a set
cursor refers to an entry reachable from the head is maintained by
delete. -/
theorem C4_delete_cursor (d : DAQ_Dict) (k : String) :
    (daq_dict_find_entry d k ≠ none → (daq_dict_delete_entry d k).iterator = []) ∧
    (daq_dict_find_entry d k = none → daq_dict_delete_entry d k = d) := by
  constructor
  · intro h
    cases hr : removeEntry d.entries k with
    | none => exact absurd (removeEntry_eq_none.mp hr) h
    | some l => simp [daq_dict_delete_entry, hr]
  · intro h
    have hr : removeEntry d.entries k = none := removeEntry_eq_none.mpr h
    simp [daq_dict_delete_entry, hr]

/-- Witness for the amended C4: deleting the present key a from a
one-entry store with a live cursor resets the cursor to none. -/
theorem C4_delete_cursor_witness :
    (daq_dict_delete_entry
      { entries := [⟨"a", none⟩], iterator := [⟨"a", none⟩] } "a").iterator = [] :=
  (C4_delete_cursor { entries := [⟨"a", none⟩], iterator := [⟨"a", none⟩] } "a").1
    (by decide)

/-- Claim C5: on a store holding entries for three distinct keys with the
middle one matching k, and any in-flight cursor, delete(k) removes
exactly the middle entry, keeps the outer two unchanged in their original
relative order, resets the cursor, and a subsequent advance without an
intervening first returns none and moves nothing. -/
theorem C5_delete_frame (ea eb ec : DAQ_DictEntry) (it : List DAQ_DictEntry) (k : String)
    (ha : ea.key ≠ k) (hb : eb.key = k) (hc : ec.key ≠ k) :
    (daq_dict_delete_entry { entries := [ea, eb, ec], iterator := it } k).entries =
      [ea, ec] ∧
    (daq_dict_delete_entry { entries := [ea, eb, ec], iterator := it } k).iterator = [] ∧
    daq_dict_next_entry (daq_dict_delete_entry
      { entries := [ea, eb, ec], iterator := it } k) =
      (daq_dict_delete_entry { entries := [ea, eb, ec], iterator := it } k, none) := by
  have hd : daq_dict_delete_entry { entries := [ea, eb, ec], iterator := it } k =
      { entries := [ea, ec], iterator := [] } := by
    simp [daq_dict_delete_entry, removeEntry, ha, hb, hc]
  rw [hd]
  exact ⟨rfl, rfl, rfl⟩

/-- Witness for C5 at concrete entries a, b, c with an in-flight cursor
on the entry for b. -/
theorem C5_delete_frame_witness :
    (daq_dict_delete_entry
      { entries := [⟨"a", none⟩, ⟨"b", some "vb"⟩, ⟨"c", none⟩],
        iterator := [⟨"b", some "vb"⟩, ⟨"c", none⟩] } "b").entries =
      [⟨"a", none⟩, ⟨"c", none⟩] ∧
    (daq_dict_delete_entry
      { entries := [⟨"a", none⟩, ⟨"b", some "vb"⟩, ⟨"c", none⟩],
        iterator := [⟨"b", some "vb"⟩, ⟨"c", none⟩] } "b").iterator = [] ∧
    daq_dict_next_entry (daq_dict_delete_entry
      { entries := [⟨"a", none⟩, ⟨"b", some "vb"⟩, ⟨"c", none⟩],
        iterator := [⟨"b", some "vb"⟩, ⟨"c", none⟩] } "b") =
      (daq_dict_delete_entry
        { entries := [⟨"a", none⟩, ⟨"b", some "vb"⟩, ⟨"c", none⟩],
          iterator := [⟨"b", some "vb"⟩, ⟨"c", none⟩] } "b", none) :=
  C5_delete_frame ⟨"a", none⟩ ⟨"b", some "vb"⟩ ⟨"c", none⟩
    [⟨"b", some "vb"⟩, ⟨"c", none⟩] "b" (by decide) (by decide) (by decide)

/-- Counterexample to claim C6 as stated: called on a null configuration
object with valid output pointers, daq_config_first_variable and
daq_config_next_variable signal DAQ_ERROR_INVAL and write nothing through
the output pointers, instead of yielding the pair (none, none). -/
theorem C6_counterexample :
    (daq_config_first_variable none true true).1 = DAQ_ERROR_INVAL ∧
    (daq_config_first_variable none true true).2.2 ≠ some (none, none) ∧
    (daq_config_next_variable none true true).1 = DAQ_ERROR_INVAL ∧
    (daq_config_next_variable none true true).2.2 ≠ some (none, none) := by
  decide

/-- Claim C6 amended: on a null configuration object firstVariable and
nextVariable return InvalidArgument and leave the output pointers
unwritten; the (none, none) projection is produced only on a live object,
by firstVariable when the store is empty and by nextVariable when the
cursor is exhausted or unset. -/
theorem C6_null_receiver (kp vp : Bool) (c : DAQ_Config) :
    daq_config_first_variable none kp vp = (DAQ_ERROR_INVAL, none, none) ∧
    daq_config_next_variable none kp vp = (DAQ_ERROR_INVAL, none, none) ∧
    (c.vars.entries = [] →
      daq_config_first_variable (some c) true true =
        (DAQ_SUCCESS, some { c with vars := { c.vars with iterator := [] } },
          some (none, none))) ∧
    (c.vars.iterator = [] →
      daq_config_next_variable (some c) true true =
        (DAQ_SUCCESS, some c, some (none, none))) := by
  refine ⟨rfl, rfl, ?_, ?_⟩
  · intro h
    simp [daq_config_first_variable, daq_dict_first_entry, h]
  · intro h
    simp [daq_config_next_variable, daq_dict_next_entry, h]

/-- Witness for the amended C6: the freshly created configuration has an
empty store and an unset cursor, so both calls produce (none, none) with
success. -/
theorem C6_null_receiver_witness :
    daq_config_first_variable (some cfg0) true true =
      (DAQ_SUCCESS, some { cfg0 with vars := { cfg0.vars with iterator := [] } },
        some (none, none)) ∧
    daq_config_next_variable (some cfg0) true true =
      (DAQ_SUCCESS, some cfg0, some (none, none)) :=
  ⟨(C6_null_receiver true true cfg0).2.2.1 rfl, (C6_null_receiver true true cfg0).2.2.2 rfl⟩

/-- Counterexample to claim C7 as stated: passing the empty string to
setInput does not clear the field to absent, the empty string is copied
and stored, so getInput afterwards returns the empty string, not none. -/
theorem C7_counterexample :
    daq_config_get_input ((daq_config_set_input (some cfg0) (some "") true).2) ≠ none ∧
    daq_config_get_input ((daq_config_set_input (some cfg0) (some "") true).2) = some "" := by
  decide

/-- Claim C7 amended: setInput on a live configuration object releases
any previously owned input string before copying the new one; passing
none clears the field to absent, while any non-null string, the empty
string included, is copied and stored; when the copy allocation fails it
returns OutOfMemory with the previous value already released and the
field left empty, not rolled back. -/
theorem C7_set_input (c : DAQ_Config) (s : String) :
    daq_config_set_input (some c) none true =
      (DAQ_SUCCESS, some { c with input := none }) ∧
    daq_config_set_input (some c) (some s) true =
      (DAQ_SUCCESS, some { c with input := some s }) ∧
    daq_config_set_input (some c) (some s) false =
      (DAQ_ERROR_NOMEM, some { c with input := none }) :=
  ⟨rfl, rfl, rfl⟩

/-- Claim C8: setVariable on a key that already has an entry duplicates
the replacement value before releasing the old one, so when the
duplication fails the call returns OutOfMemory and the configuration,
store and entry value included, is left completely unchanged. -/
theorem C8_set_variable_atomic (c : DAQ_Config) (k v : String) (e : DAQ_DictEntry)
    (h : daq_dict_find_entry c.vars k = some e) :
    daq_config_set_variable (some c) (some k) (some v) true true false =
      (DAQ_ERROR_NOMEM, some c) := by
  simp [daq_config_set_variable, h]

/-- Witness for C8 at a concrete input: a store holding key k with value
v0; the failed update to v1 reports OutOfMemory and changes nothing. -/
theorem C8_set_variable_atomic_witness :
    daq_dict_find_entry cfg1.vars "k" = some ⟨"k", some "v0"⟩ ∧
    daq_config_set_variable (some cfg1) (some "k") (some "v1") true true false =
      (DAQ_ERROR_NOMEM, some cfg1) :=
  ⟨by decide, C8_set_variable_atomic cfg1 "k" "v1" ⟨"k", some "v0"⟩ (by decide)⟩

/-- Claim C9: daq_config_new returns InvalidArgument when the output
pointer is null, not only when the module reference is null, and on any
failure the output pointer is never written. -/
theorem C9_new_output_pointer (m : Option DAQ_Module) (ok p : Bool) :
    daq_config_new false m ok = (DAQ_ERROR_INVAL, none) ∧
    ((daq_config_new p m ok).1 ≠ DAQ_SUCCESS → (daq_config_new p m ok).2 = none) := by
  cases m <;> cases p <;> cases ok <;>
    simp [daq_config_new, DAQ_SUCCESS, DAQ_ERROR_INVAL, DAQ_ERROR_NOMEM]

/-- Witness for C9 at concrete inputs: a null output pointer with a live
module reference fails with InvalidArgument, and a failing call with a
null module reference writes nothing. -/
theorem C9_new_output_pointer_witness :
    daq_config_new false (some 0) true = (DAQ_ERROR_INVAL, none) ∧
    (daq_config_new true none true).2 = none :=
  ⟨(C9_new_output_pointer (some 0) true false).1,
   (C9_new_output_pointer none true true).2 (by decide)⟩

/-- Claim C10: firstVariable and nextVariable return InvalidArgument when
either caller-supplied output pointer is null, leaving the configuration,
cursor included, unchanged and writing nothing; the cursor moves only
when both output pointers are non-null. -/
theorem C10_output_pointer_invalid (c : DAQ_Config) (kp vp : Bool)
    (h : kp = false ∨ vp = false) :
    daq_config_first_variable (some c) kp vp = (DAQ_ERROR_INVAL, some c, none) ∧
    daq_config_next_variable (some c) kp vp = (DAQ_ERROR_INVAL, some c, none) := by
  rcases h with h | h <;> subst h <;>
    exact ⟨by simp [daq_config_first_variable], by simp [daq_config_next_variable]⟩

/-- Witness for C10 at a concrete input: a null key output pointer on a
live configuration. -/
theorem C10_output_pointer_invalid_witness :
    daq_config_first_variable (some cfg0) false true =
      (DAQ_ERROR_INVAL, some cfg0, none) ∧
    daq_config_next_variable (some cfg0) false true =
      (DAQ_ERROR_INVAL, some cfg0, none) :=
  C10_output_pointer_invalid cfg0 false true (Or.inl rfl)

end LibDAQ
